import Mathlib

/-
Verification of the Djrill mail backend (djrill/mail/__init__.py and
djrill/mail/backends.py): a shallow embedding of the message model and the
dispatcher, with theorems about tag validation, payload construction,
endpoint selection, batch sending and error classification.

Python exceptions are modelled as an inductive error type and fallible
Python functions as Lean functions into `Except PyError _`. Python dict
keys that may be absent are modelled as `Option` fields. A Python object
attribute that may be missing entirely (reading it raises AttributeError)
is likewise an `Option` field, with `none` meaning the attribute was never
set on the object.
-/

deriving instance DecidableEq for Except

namespace Djrill

/-- Python str.startswith: is `p` a prefix of `s`? Implemented on the
character sequence so that the kernel can evaluate it. -/
def pyStartsWith (s p : String) : Bool :=
  p.data.isPrefixOf s.data

/-- Python str.strip / the whitespace trimming around a parsed display
name, on the character sequence. -/
def trimChars (l : List Char) : List Char :=
  ((l.dropWhile Char.isWhitespace).reverse.dropWhile Char.isWhitespace).reverse

/-- The Python exception kinds that the Djrill code and its callers can
observe: `django.core.exceptions.ImproperlyConfigured`, the builtin
`RuntimeError`, `TypeError` (subscripting `None`), `IndexError`
(subscripting an empty string), `AttributeError` (reading a missing
attribute), and `DjrillBackendHTTPError` from backends.py, which carries
the HTTP status code and the `message` field of the response body. -/
inductive PyError where
  | improperlyConfigured (msg : String)
  | runtimeError (msg : String)
  | typeError (msg : String)
  | indexError (msg : String)
  | attrError (attrName : String)
  | djrillBackendHTTPError (status_code : Nat) (message : String)
deriving DecidableEq, Repr

/-- Whether a result is the `ImproperlyConfigured` exception — the error kind
the spec calls `ConfigurationError`. -/
def raisesConfigurationError {α : Type} (r : Except PyError α) : Bool :=
  match r with
  | .error (.improperlyConfigured _) => true
  | _ => false

/-- The Django settings object, restricted to the two names the backend
reads. `none` models the setting being absent from settings.py (for these
two the code reads them with `getattr(settings, name, None)`). A present
but empty string is `some ""`. -/
structure Settings where
  MANDRILL_API_KEY : Option String
  MANDRILL_API_URL : Option String
deriving DecidableEq, Repr

/-- An email message as the dispatcher consumes it: the host-framework
fields (subject, body, from_email, recipients, extra_headers, alternatives,
encoding, content_subtype) plus the Djrill extension attributes set by
`DjrillMessageMixin` / `DjrillTemplateMessage`.

 * `recipients` models the host `recipients()` list (spec section 3: the
   ordered sequence of address strings the message is addressed to).
 * `alternatives` holds (content, mimetype) pairs; a plain `EmailMessage`
   has no such attribute, which the backend reads via
   `getattr(message, "alternatives", None)` — absence therefore behaves
   exactly like `[]` and is modelled as `[]`.
 * `from_name` is `none` when the attribute is absent (a message not built
   through the mixin); `some v` when the attribute is set to `v`, where
   `v = none` models the Python value `None`.
 * `global_merge_vars` is `none` when the attribute is absent — the mixin
   never sets it, so it is absent unless the caller assigned it; `some l`
   models an attribute holding a dict whose items (in iteration order) are
   `l`; a dict set to `None` or `{}` is `some []` (both are falsy and the
   code treats them identically).
 * `template_name` / `template_content` are only ever read behind the
   `content_subtype == "mandrill.template"` test, and every message with
   that subtype has them set, so they are plain fields (dummy values on
   other messages are never read by the embedded code). -/
structure DjrillMessage where
  subject : String
  body : String
  from_email : String
  recipients : List String
  extra_headers : List (String × String)
  alternatives : List (String × String)
  encoding : String
  content_subtype : String
  from_name : Option (Option String)
  tags : List String
  track_opens : Bool
  track_clicks : Bool
  global_merge_vars : Option (List (String × String))
  template_name : String
  template_content : List (String × String)
deriving DecidableEq, Repr

/-- The host-framework constructor arguments of a message (owned by the
caller / the framework, spec section 3 "Message (base)"). -/
structure BaseFields where
  subject : String
  body : String
  from_email : String
  recipients : List String
  extra_headers : List (String × String)
  alternatives : List (String × String)
  encoding : String
deriving DecidableEq, Repr

/-- `DjrillMessageMixin._set_mandrill_tags`: each tag of length at most 50
that does not start with an underscore is kept, in order; a tag starting
with an underscore raises `ImproperlyConfigured`; any other tag (longer
than 50 characters) is silently dropped. -/
def set_mandrill_tags : List String → Except PyError (List String)
  | [] => .ok []
  | tag :: rest =>
    if tag.length ≤ 50 ∧ ¬ pyStartsWith tag "_" then
      (set_mandrill_tags rest).map (fun tl => tag :: tl)
    else if pyStartsWith tag "_" then
      .error (.improperlyConfigured
        "Tags starting with an underscore are reserved for internal use and will cause errors with Mandill's API")
    else
      set_mandrill_tags rest

/-- `DjrillMessageMixin.__init__` composed with `DjrillMessage`'s class
body (content_subtype = "mandrill"): sets `from_name` (possibly to Python
`None`), validates the tags with `_set_mandrill_tags(tags or [])`, sets the
tracking flags, and — notably — never sets `global_merge_vars`, so that
attribute stays absent. -/
def djrillMessageInit (base : BaseFields) (from_name : Option String)
    (tags : Option (List String)) (track_opens track_clicks : Bool) :
    Except PyError DjrillMessage :=
  (set_mandrill_tags (tags.getD [])).map (fun tag_list =>
    { subject := base.subject
      body := base.body
      from_email := base.from_email
      recipients := base.recipients
      extra_headers := base.extra_headers
      alternatives := base.alternatives
      encoding := base.encoding
      content_subtype := "mandrill"
      from_name := some from_name
      tags := tag_list
      track_opens := track_opens
      track_clicks := track_clicks
      global_merge_vars := none
      template_name := ""
      template_content := [] })

/-- `DjrillTemplateMessage.__init__` (content_subtype =
"mandrill.template"): first runs the mixin initializer via
`super().__init__(**kwargs)` (so tag validation happens first), then
raises `RuntimeError("Template name is required")` when `template_name` is
`None` or empty (Python falsy), and otherwise stores it together with
`template_content or []`. A `DjrillTemplateMessage` extends `EmailMessage`,
which has no `alternatives` attribute; per the modelling note above that is
`alternatives := []` here. -/
def djrillTemplateMessageInit (base : BaseFields)
    (template_name : Option String)
    (template_content : Option (List (String × String)))
    (from_name : Option String) (tags : Option (List String))
    (track_opens track_clicks : Bool) :
    Except PyError DjrillMessage :=
  match djrillMessageInit base from_name tags track_opens track_clicks with
  | .error e => .error e
  | .ok m =>
    match template_name with
    | none => .error (.runtimeError "Template name is required")
    | some tn =>
      if tn = "" then .error (.runtimeError "Template name is required")
      else .ok { m with
        content_subtype := "mandrill.template"
        alternatives := []
        template_name := tn
        template_content := template_content.getD [] }

/-- The backend object after successful construction. -/
structure DjrillBackend where
  api_key : String
  api_url : String
  fail_silently : Bool
deriving DecidableEq, Repr

/-- `DjrillBackend.__init__`: reads `MANDRILL_API_KEY` and
`MANDRILL_API_URL` with `getattr(..., None)`, then evaluates
`self.api_url[-1]` — which raises `TypeError` when the setting is absent
(`None[-1]`) and `IndexError` when it is the empty string (`""[-1]`) —
appends a trailing slash when missing, and only then checks
`if not self.api_key` and `if not self.api_url`, raising
`ImproperlyConfigured`. The second check can no longer fire at that point,
because `self.api_url` is a nonempty string once the subscript succeeded. -/
def backendInit (s : Settings) (fail_silently : Bool) :
    Except PyError DjrillBackend :=
  let api_key := s.MANDRILL_API_KEY
  match s.MANDRILL_API_URL with
  | none => .error (.typeError "'NoneType' object is not subscriptable")
  | some url =>
    if url.length = 0 then
      .error (.indexError "string index out of range")
    else
      let api_url := if url.data.getLast? = some '/' then url else url ++ "/"
      if api_key = none ∨ api_key = some "" then
        .error (.improperlyConfigured
          "You have not set your Mandrill api key in the settings.py file.")
      else if api_url.length = 0 then
        .error (.improperlyConfigured
          "You have not added the Mandrill api url to your settings.py")
      else
        .ok { api_key := api_key.getD ""
              api_url := api_url
              fail_silently := fail_silently }

/-- The `api_methods` class dict: suffix for each of the two send methods. -/
def api_methods (method_name : String) : String :=
  if method_name = "send-template" then "messages/send-template.json"
  else "messages/send.json"

/-- `DjrillBackend._get_target`: picks "send-template" for the template
subtype and "send" otherwise, and concatenates the suffix onto the RAW
`settings.MANDRILL_API_URL` — not onto the slash-normalized
`self.api_url` computed in `__init__`. The argument
`mandrill_api_url` is that raw setting (it is a string whenever `_send` is
reachable, since construction already subscripted it). -/
def get_target (mandrill_api_url : String) (message : DjrillMessage) :
    String :=
  let method_name :=
    if message.content_subtype = "mandrill.template" then "send-template"
    else "send"
  mandrill_api_url ++ api_methods method_name

/-- Modelled from the spec: `django.core.mail.message.sanitize_address` is
host-framework code outside this repository. For the already-sane ASCII
address strings the spec discusses it returns the address unchanged, so it
is modelled as the identity on the address. -/
def sanitize_address (addr : String) (encoding : String) : String :=
  let _ := encoding
  addr

/-- Modelled from the spec: `email.utils.parseaddr` is host-library code
outside this repository. The spec (section 8, round-trip property) fixes
its behavior on the two address shapes in play: a string of the form
"Name <addr>" parses to the pair (display name, address), and a bare
address parses to ("", address). The display name is the text before the
first angle bracket, stripped of surrounding whitespace; the address is
the text between the angle brackets. -/
def parseaddr (s : String) : String × String :=
  if s.data.contains '<' then
    let name := String.mk (trimChars (s.data.takeWhile (fun c => c ≠ '<')))
    let email := String.mk (((s.data.dropWhile
      (fun c => c ≠ '<')).drop 1).takeWhile (fun c => c ≠ '>'))
    (name, email)
  else
    ("", s)

/-- One entry of the payload's `to` list: a `{"email": ..., "name": ...}`
object. -/
structure Recipient where
  email : String
  name : String
deriving DecidableEq, Repr

/-- The `message` sub-dict of the payload. The base payload sets the first
five keys; every other key is absent (`none`) until the mandrill update
pass adds it. `global_merge_vars` holds the list of
`{"name": ..., "content": ...}` objects, one per dict item, as
(name, content) pairs. -/
structure MessagePayload where
  text : String
  subject : String
  from_email : String
  from_name : Option String
  recipientObjs : List Recipient
  headers : Option (List (String × String))
  tags : Option (List String)
  track_opens : Option Bool
  track_clicks : Option Bool
  global_merge_vars : Option (List (String × String))
  html : Option String
deriving DecidableEq, Repr

/-- The full payload dict: the API key, the `message` sub-dict, and — only
for the template variant — top-level `template_name` / `template_content`
keys (absent, i.e. `none`, otherwise). -/
structure Payload where
  key : String
  message : MessagePayload
  template_name : Option String
  template_content : Option (List (String × String))
deriving DecidableEq, Repr

/-- `DjrillBackend._build_standard_payload`: sanitizes and parses each
recipient into a `{email, name}` object (input order preserved), parses
the sender, and builds the base dict. The `from_name` value is
`getattr(message, "from_name", name)`: the attribute's own value when the
attribute is set (even when set to Python `None`), and the display name
parsed out of `from_email` when the attribute is absent. -/
def build_standard_payload (backend : DjrillBackend)
    (message : DjrillMessage) : Payload :=
  let recipients_list := message.recipients.map
    (fun addr => sanitize_address addr message.encoding)
  let recipientObjs := recipients_list.map (fun r =>
    let p := parseaddr r
    { email := p.2, name := p.1 : Recipient })
  let sender := sanitize_address message.from_email message.encoding
  let p := parseaddr sender
  { key := backend.api_key
    message :=
      { text := message.body
        subject := message.subject
        from_email := p.2
        from_name :=
          match message.from_name with
          | some v => v
          | none => some p.1
        recipientObjs := recipientObjs
        headers := none
        tags := none
        track_opens := none
        track_clicks := none
        global_merge_vars := none
        html := none }
    template_name := none
    template_content := none }

/-- `DjrillBackend._update_mandrill_payload`: filters `extra_headers` down
to keys starting with "X-" or equal to "Reply-To"; writes `headers`,
`tags`, `track_opens`, `track_clicks` into the message sub-dict (the
`headers` key ends up present — as the filtered, possibly empty, dict — on
every path, because the unconditional second `update` call also sets it);
reads `message.global_merge_vars` unconditionally — an `AttributeError`
when the attribute was never set — and, when it is truthy, stores its
items as `{name, content}` objects; raises `ImproperlyConfigured` when
more than one alternative is attached and otherwise copies a single
alternative's content to `html`; and for the template subtype adds the
top-level `template_name` / `template_content` keys. -/
def update_mandrill_payload (payload : Payload) (message : DjrillMessage) :
    Except PyError Payload :=
  let accepted_headers := message.extra_headers.filter
    (fun kv => pyStartsWith kv.1 "X-" ∨ kv.1 = "Reply-To")
  let msg1 := { payload.message with
    headers := some accepted_headers
    tags := some message.tags
    track_opens := some message.track_opens
    track_clicks := some message.track_clicks }
  match message.global_merge_vars with
  | none => .error (.attrError "global_merge_vars")
  | some gmv =>
    let msg2 :=
      if gmv ≠ [] then { msg1 with global_merge_vars := some gmv }
      else msg1
    match message.alternatives with
    | [] =>
      .ok (withTemplateKeys { payload with message := msg2 } message)
    | [alt] =>
      .ok (withTemplateKeys
        { payload with message := { msg2 with html := some alt.1 } } message)
    | _ :: _ :: _ =>
      .error (.improperlyConfigured
        "Mandrill only accepts plain text and html emails. Please check the alternatives you have attached to your message.")
where
  /-- The trailing `payload.update(...)` for the "mandrill.template"
  subtype. -/
  withTemplateKeys (p : Payload) (message : DjrillMessage) : Payload :=
    if message.content_subtype = "mandrill.template" then
      { p with
        template_name := some message.template_name
        template_content := some message.template_content }
    else p

/-- An HTTP response as `_send` inspects it: the status code, and the
`message` field of the JSON response body (modelled from the spec:
`requests.post` and `json.loads` are host libraries; per spec section 6
a non-200 response body is expected to contain a `message` field). -/
structure HttpResp where
  status_code : Nat
  message_field : String
deriving DecidableEq, Repr

/-- The transport: what `requests.post(target, data=json.dumps(payload))`
returns for a given target URL and payload. Passed in as a function so
that theorems can quantify over provider behavior. -/
def Transport : Type := String → Payload → HttpResp

/-- Lines 67-69 of `DjrillBackend._send`: the base payload, then the
mandrill update pass whenever `content_subtype.startswith("mandrill")`. -/
def build_payload (backend : DjrillBackend) (message : DjrillMessage) :
    Except PyError Payload :=
  let payload := build_standard_payload backend message
  if pyStartsWith message.content_subtype "mandrill" then
    update_mandrill_payload payload message
  else
    .ok payload

/-- `DjrillBackend._send`: returns `False` without touching the transport
when the message has no recipients; builds the payload (possibly raising);
POSTs to the target computed from the raw `settings.MANDRILL_API_URL`
(`mandrill_api_url` below); on a non-200 status either returns `False`
(fail_silently) or raises `DjrillBackendHTTPError` with the status code
and the body's `message` field; on a 200 status returns `True`. -/
def send_message (mandrill_api_url : String) (backend : DjrillBackend)
    (transport : Transport) (message : DjrillMessage) :
    Except PyError Bool :=
  if message.recipients = [] then .ok false
  else
    match build_payload backend message with
    | .error e => .error e
    | .ok payload =>
      let target := get_target mandrill_api_url message
      let resp := transport target payload
      if resp.status_code ≠ 200 then
        if backend.fail_silently then .ok false
        else .error (.djrillBackendHTTPError resp.status_code
          resp.message_field)
      else .ok true

/-- The loop body of `send_messages`: fold `_send` over the batch,
counting confirmed sends; an uncaught exception aborts the rest. -/
def send_loop (mandrill_api_url : String) (backend : DjrillBackend)
    (transport : Transport) :
    List DjrillMessage → Nat → Except PyError Nat
  | [], num_sent => .ok num_sent
  | m :: rest, num_sent =>
    match send_message mandrill_api_url backend transport m with
    | .error e => .error e
    | .ok true => send_loop mandrill_api_url backend transport rest
        (num_sent + 1)
    | .ok false => send_loop mandrill_api_url backend transport rest
        num_sent

/-- `DjrillBackend.send_messages`: an empty batch returns Python `None`
(modelled as `none`, distinct from `some 0`); otherwise the count of
messages for which `_send` returned `True`. -/
def send_messages (mandrill_api_url : String) (backend : DjrillBackend)
    (transport : Transport) (email_messages : List DjrillMessage) :
    Except PyError (Option Nat) :=
  if email_messages = [] then .ok none
  else
    (send_loop mandrill_api_url backend transport email_messages 0).map
      some

/-! Concrete example values used by witnesses and counterexamples. -/

/-- Host-framework constructor arguments for a small example message. -/
def exampleBase : BaseFields :=
  { subject := "Subject"
    body := "Hello"
    from_email := "Bob <bob@example.com>"
    recipients := ["Jane Doe <jane@example.com>"]
    extra_headers := []
    alternatives := []
    encoding := "utf-8" }

/-- A plain Django EmailMessage (not built through the mixin): its
content_subtype is "plain" and none of the Djrill attributes are set. -/
def plainMsg : DjrillMessage :=
  { subject := "Subject"
    body := "Hello"
    from_email := "Bob <bob@example.com>"
    recipients := ["Jane Doe <jane@example.com>"]
    extra_headers := []
    alternatives := []
    encoding := "utf-8"
    content_subtype := "plain"
    from_name := none
    tags := []
    track_opens := true
    track_clicks := true
    global_merge_vars := none
    template_name := ""
    template_content := [] }

/-- The message `djrillMessageInit exampleBase (some "Bob") none true true`
produces: a DjrillMessage whose `global_merge_vars` attribute is unset. -/
def mixinMsg : DjrillMessage :=
  { subject := "Subject"
    body := "Hello"
    from_email := "Bob <bob@example.com>"
    recipients := ["Jane Doe <jane@example.com>"]
    extra_headers := []
    alternatives := []
    encoding := "utf-8"
    content_subtype := "mandrill"
    from_name := some (some "Bob")
    tags := []
    track_opens := true
    track_clicks := true
    global_merge_vars := none
    template_name := ""
    template_content := [] }

/-- A template-variant message whose caller assigned `global_merge_vars`
(to an empty dict) before sending. -/
def templateMsg : DjrillMessage :=
  { plainMsg with
    content_subtype := "mandrill.template"
    from_name := some none
    global_merge_vars := some []
    template_name := "welcome"
    template_content := [("block", "<b>hi</b>")] }

/-- A successfully constructed backend with fail_silently off. -/
def exampleBackend : DjrillBackend :=
  { api_key := "key", api_url := "http://u/", fail_silently := false }

/-- The same backend with fail_silently on. -/
def silentBackend : DjrillBackend :=
  { api_key := "key", api_url := "http://u/", fail_silently := true }

/-- A provider that accepts everything with status 200. -/
def okTransport : Transport := fun _ _ => { status_code := 200, message_field := "ok" }

/-- A provider that rejects everything with status 400 and the error body
the spec uses in its example. -/
def badTransport : Transport := fun _ _ =>
  { status_code := 400, message_field := "Invalid API key" }

/-- The base payload `_build_standard_payload` produces for `plainMsg`
with `exampleBackend` (the fail_silently flag does not enter the payload,
so `silentBackend` yields the same value). -/
def plainPayload : Payload := build_standard_payload exampleBackend plainMsg

/-- A mixin message whose caller assigned an empty `global_merge_vars`
and attached two alternatives. -/
def twoAltMsg : DjrillMessage :=
  { mixinMsg with
    global_merge_vars := some []
    alternatives := [("<p>one</p>", "text/html"), ("<p>two</p>", "text/html")] }

/-- The same message with exactly one alternative. -/
def oneAltMsg : DjrillMessage :=
  { mixinMsg with
    global_merge_vars := some []
    alternatives := [("<p>hi</p>", "text/html")] }

/-- The same message with no alternatives. -/
def zeroAltMsg : DjrillMessage :=
  { mixinMsg with global_merge_vars := some [] }

/-- A mixin message with two alternatives whose caller did NOT assign
`global_merge_vars` — the state every message has right after
`DjrillMessageMixin.__init__`. -/
def twoAltNoGmvMsg : DjrillMessage :=
  { mixinMsg with
    alternatives := [("<p>one</p>", "text/html"), ("<p>two</p>", "text/html")] }

/-! Theorems. -/

/-- C1: `send_messages` on an empty sequence returns Python `None`, a no-op
signal distinct from the integer zero; a message whose recipients list is
empty is treated as not sent — `_send` returns `False` for every transport,
so no transport call is made, it is not counted and no error is raised —
and a batch of one successful message and one recipient-less message
returns the count 1. -/
theorem c1_send_messages_batch
    (u : String) (b : DjrillBackend) (t : Transport) (m1 m2 : DjrillMessage)
    (h1 : send_message u b t m1 = .ok true)
    (h2 : m2.recipients = []) :
    send_messages u b t [] = .ok none
    ∧ send_messages u b t [] ≠ .ok (some 0)
    ∧ (∀ t2 : Transport, send_message u b t2 m2 = .ok false)
    ∧ send_messages u b t [m1, m2] = .ok (some 1) := by
  have hm2 : ∀ t2 : Transport, send_message u b t2 m2 = .ok false := by
    intro t2
    simp [send_message, h2]
  refine ⟨rfl, by simp [send_messages], hm2, ?_⟩
  simp [send_messages, send_loop, h1, hm2 t, Except.map]

/-- Witness for C1 at concrete inputs: a plain one-recipient message that
the provider accepts, next to a message with an empty recipients list. -/
theorem c1_witness :
    send_message "http://u/" exampleBackend okTransport plainMsg = .ok true
    ∧ ({ plainMsg with recipients := [] } : DjrillMessage).recipients = []
    ∧ send_messages "http://u/" exampleBackend okTransport [] = .ok none
    ∧ send_messages "http://u/" exampleBackend okTransport
        [plainMsg, { plainMsg with recipients := [] }] = .ok (some 1) := by
  have h := c1_send_messages_batch "http://u/" exampleBackend okTransport
    plainMsg { plainMsg with recipients := [] } (by decide) rfl
  exact ⟨by decide, rfl, h.1, h.2.2.2⟩

/-- C9: the base payload's `from_name` equals the message's `from_name`
attribute value whenever the attribute is set, and otherwise equals the
display name parsed out of the (sanitized) `from_email` header by
RFC-2822 address parsing. -/
theorem c9_from_name_precedence (b : DjrillBackend) (m : DjrillMessage) :
    (∀ v, m.from_name = some v →
      (build_standard_payload b m).message.from_name = v)
    ∧ (m.from_name = none →
      (build_standard_payload b m).message.from_name
        = some (parseaddr (sanitize_address m.from_email m.encoding)).1) := by
  constructor
  · intro v hv
    simp [build_standard_payload, hv]
  · intro hv
    simp [build_standard_payload, hv]

/-- Witness for C9: a message with no explicit display-name attribute and
from_email "Bob <bob@example.com>" yields from_name "Bob"; setting the
attribute overrides the parsed name. -/
theorem c9_witness :
    plainMsg.from_name = none
    ∧ (build_standard_payload exampleBackend plainMsg).message.from_name
        = some "Bob"
    ∧ mixinMsg.from_name = some (some "Bob")
    ∧ (build_standard_payload exampleBackend
        { mixinMsg with from_name := some (some "Custom Name")
          }).message.from_name = some "Custom Name" := by
  have h1 := (c9_from_name_precedence exampleBackend plainMsg).2 rfl
  have h2 := (c9_from_name_precedence exampleBackend
    { mixinMsg with from_name := some (some "Custom Name") }).1
    (some "Custom Name") rfl
  refine ⟨rfl, ?_, rfl, h2⟩
  rw [h1]
  decide

/-- C3: tag validation — any tag starting with an underscore makes
construction raise `ImproperlyConfigured`, wherever it sits in the list;
when no tag starts with an underscore the result is exactly the input tags
of length at most 50, in input order (over-length tags silently dropped,
no deduplication, no case normalization). -/
theorem c3_tag_normalization (tags : List String) :
    ((∃ tg ∈ tags, pyStartsWith tg "_") →
      set_mandrill_tags tags = .error (.improperlyConfigured
        "Tags starting with an underscore are reserved for internal use and will cause errors with Mandill's API"))
    ∧ ((∀ tg ∈ tags, ¬ pyStartsWith tg "_") →
      set_mandrill_tags tags
        = .ok (tags.filter (fun tg => decide (tg.length ≤ 50)))) := by
  induction tags with
  | nil =>
    constructor
    · intro h
      simp at h
    · intro _
      rfl
  | cons t rest ih =>
    constructor
    · intro h
      by_cases hu : pyStartsWith t "_"
      · by_cases hl : t.length ≤ 50
        · simp [set_mandrill_tags, hu, hl]
        · simp [set_mandrill_tags, hu, hl]
      · have hrest : ∃ tg ∈ rest, pyStartsWith tg "_" := by
          rcases h with ⟨tg, htg, hs⟩
          rcases List.mem_cons.mp htg with heq | hmem
          · exact absurd (heq ▸ hs) hu
          · exact ⟨tg, hmem, hs⟩
        have herr := ih.1 hrest
        by_cases hl : t.length ≤ 50
        · simp [set_mandrill_tags, hu, hl, herr, Except.map]
        · simp [set_mandrill_tags, hu, hl, herr, Except.map]
    · intro h
      have ht : ¬ pyStartsWith t "_" := h t (List.mem_cons_self t rest)
      have hrest := ih.2 (fun tg hm => h tg (List.mem_cons_of_mem t hm))
      by_cases hl : t.length ≤ 50
      · simp [set_mandrill_tags, ht, hl, hrest, List.filter_cons, Except.map]
      · simp [set_mandrill_tags, ht, hl, hrest, List.filter_cons, Except.map]

/-- Witness for C3: a reserved tag in second position raises; a 51-char
tag is silently dropped while a valid tag is kept. -/
theorem c3_witness :
    (∃ tg ∈ ["ok", "_bad"], pyStartsWith tg "_")
    ∧ set_mandrill_tags ["ok", "_bad"] = .error (.improperlyConfigured
        "Tags starting with an underscore are reserved for internal use and will cause errors with Mandill's API")
    ∧ (∀ tg ∈ ["ok", String.mk (List.replicate 51 'a')],
        ¬ pyStartsWith tg "_")
    ∧ set_mandrill_tags ["ok", String.mk (List.replicate 51 'a')]
        = .ok ["ok"] := by
  refine ⟨by decide, (c3_tag_normalization ["ok", "_bad"]).1 (by decide),
    by decide, ?_⟩
  have h := (c3_tag_normalization
    ["ok", String.mk (List.replicate 51 'a')]).2 (by decide)
  rw [h]
  decide

/-- C2: when the transport returns a non-200 status for a message that
reached the transport (nonempty recipients, payload building succeeded),
`_send` raises `DjrillBackendHTTPError` carrying the status code and the
`message` field of the response body when fail_silently is off, and
returns `False` (not sent, no raise) when fail_silently is on. -/
theorem c2_non200_classification
    (u : String) (b : DjrillBackend) (t : Transport) (m : DjrillMessage)
    (pl : Payload)
    (hrec : m.recipients ≠ [])
    (hpay : build_payload b m = .ok pl)
    (hstatus : (t (get_target u m) pl).status_code ≠ 200) :
    (b.fail_silently = false →
      send_message u b t m = .error (.djrillBackendHTTPError
        (t (get_target u m) pl).status_code
        (t (get_target u m) pl).message_field))
    ∧ (b.fail_silently = true → send_message u b t m = .ok false) := by
  constructor <;> intro hfs <;>
    simp [send_message, hrec, hpay, hstatus, hfs]

/-- Witness for C2: a 400 response with body message "Invalid API key"
raises with status 400 and that text under fail_silently = false, and
yields `.ok false` under fail_silently = true. -/
theorem c2_witness :
    plainMsg.recipients ≠ []
    ∧ build_payload exampleBackend plainMsg = .ok plainPayload
    ∧ (badTransport (get_target "http://u/" plainMsg) plainPayload).status_code
        = 400
    ∧ send_message "http://u/" exampleBackend badTransport plainMsg
      = .error (.djrillBackendHTTPError 400 "Invalid API key")
    ∧ send_message "http://u/" silentBackend badTransport plainMsg
      = .ok false := by
  have h1 := (c2_non200_classification "http://u/" exampleBackend
    badTransport plainMsg plainPayload (by decide) (by decide)
    (by decide)).1 rfl
  have h2 := (c2_non200_classification "http://u/" silentBackend
    badTransport plainMsg plainPayload (by decide) (by decide)
    (by decide)).2 rfl
  exact ⟨by decide, by decide, rfl, h1, h2⟩

/-- Payload building on a provider-extended message (with the
`global_merge_vars` attribute assigned) that carries more than one
alternative raises `ImproperlyConfigured`, for every backend. -/
theorem build_payload_multi_alternatives
    (b : DjrillBackend) (m : DjrillMessage) (g : List (String × String))
    (hsub : pyStartsWith m.content_subtype "mandrill" = true)
    (hg : m.global_merge_vars = some g)
    (halt : 2 ≤ m.alternatives.length) :
    build_payload b m = .error (.improperlyConfigured
      "Mandrill only accepts plain text and html emails. Please check the alternatives you have attached to your message.") := by
  cases halts : m.alternatives with
  | nil =>
    rw [halts] at halt
    simp at halt
  | cons a1 tl =>
    cases tl with
    | nil =>
      rw [halts] at halt
      simp at halt
    | cons a2 rest =>
      simp [build_payload, hsub, update_mandrill_payload, hg, halts]

/-- C4 counterexample: the claim fails as stated — a provider-extended
message as the mixin constructs it (`global_merge_vars` attribute unset)
with two attached alternatives does NOT raise `ImproperlyConfigured` at
send time: payload building dies first on the unconditional
`message.global_merge_vars` read with `AttributeError`, before the
alternatives check is reached. -/
theorem c4_counterexample :
    djrillMessageInit { exampleBase with
        alternatives := [("<p>one</p>", "text/html"),
          ("<p>two</p>", "text/html")] } (some "Bob") none true true
      = .ok twoAltNoGmvMsg
    ∧ twoAltNoGmvMsg.global_merge_vars = none
    ∧ 2 ≤ twoAltNoGmvMsg.alternatives.length
    ∧ build_payload exampleBackend twoAltNoGmvMsg
      = .error (.attrError "global_merge_vars")
    ∧ raisesConfigurationError (build_payload exampleBackend twoAltNoGmvMsg)
      = false
    ∧ send_message "http://u/" exampleBackend okTransport twoAltNoGmvMsg
      = .error (.attrError "global_merge_vars")
    ∧ raisesConfigurationError
        (send_message "http://u/" exampleBackend okTransport twoAltNoGmvMsg)
      = false := by
  refine ⟨rfl, rfl, by decide, rfl, rfl, by decide, by decide⟩

/-- C4 as amended: at send time a provider-extended message whose
`global_merge_vars` attribute has been assigned (otherwise the send
raises `AttributeError` before the alternatives check — see C8 and the
counterexample) and that has more than one alternative raises
`ImproperlyConfigured`; with exactly one alternative the payload's
message sub-dict gets `html` equal to that alternative's content; with
zero alternatives the `html` key is absent. -/
theorem c4_alternatives_rule
    (b : DjrillBackend) (m : DjrillMessage) (g : List (String × String))
    (hsub : pyStartsWith m.content_subtype "mandrill" = true)
    (hg : m.global_merge_vars = some g) :
    (2 ≤ m.alternatives.length →
      build_payload b m = .error (.improperlyConfigured
        "Mandrill only accepts plain text and html emails. Please check the alternatives you have attached to your message."))
    ∧ (∀ c mt, m.alternatives = [(c, mt)] →
      ∃ p, build_payload b m = .ok p ∧ p.message.html = some c)
    ∧ (m.alternatives = [] →
      ∃ p, build_payload b m = .ok p ∧ p.message.html = none) := by
  refine ⟨fun halt => build_payload_multi_alternatives b m g hsub hg halt,
    ?_, ?_⟩
  · intro c mt halts
    by_cases hgg : g = []
    · simp [build_payload, hsub, update_mandrill_payload, hg, halts, hgg,
        update_mandrill_payload.withTemplateKeys]
      split <;> rfl
    · simp [build_payload, hsub, update_mandrill_payload, hg, halts, hgg,
        update_mandrill_payload.withTemplateKeys]
      split <;> rfl
  · intro halts
    by_cases hgg : g = []
    · simp [build_payload, hsub, update_mandrill_payload, hg, halts, hgg,
        update_mandrill_payload.withTemplateKeys,
        build_standard_payload]
      split <;> rfl
    · simp [build_payload, hsub, update_mandrill_payload, hg, halts, hgg,
        update_mandrill_payload.withTemplateKeys,
        build_standard_payload]
      split <;> rfl

/-- Witness for C4 at concrete messages with two, one and zero
alternatives. -/
theorem c4_witness :
    pyStartsWith twoAltMsg.content_subtype "mandrill" = true
    ∧ twoAltMsg.global_merge_vars = some []
    ∧ 2 ≤ twoAltMsg.alternatives.length
    ∧ build_payload exampleBackend twoAltMsg = .error (.improperlyConfigured
        "Mandrill only accepts plain text and html emails. Please check the alternatives you have attached to your message.")
    ∧ (∃ p, build_payload exampleBackend oneAltMsg = .ok p
        ∧ p.message.html = some "<p>hi</p>")
    ∧ (∃ p, build_payload exampleBackend zeroAltMsg = .ok p
        ∧ p.message.html = none) := by
  refine ⟨rfl, rfl, by decide,
    (c4_alternatives_rule exampleBackend twoAltMsg [] rfl rfl).1 (by decide),
    (c4_alternatives_rule exampleBackend oneAltMsg [] rfl rfl).2.1
      "<p>hi</p>" "text/html" rfl,
    (c4_alternatives_rule exampleBackend zeroAltMsg [] rfl rfl).2.2 rfl⟩

/-- C5 (code bug): `_get_target` concatenates the endpoint suffix onto the
RAW `settings.MANDRILL_API_URL`, not onto the slash-normalized
`self.api_url` computed (and then never used) by `__init__`: with a base
URL lacking the trailing slash, construction stores a normalized URL but
the target comes out without the slash. The suffix selection and the
template-only top-level payload keys behave as claimed. -/
theorem c5_target_skips_normalized_url :
    backendInit ⟨some "key", some "http://mandrillapp.com/api/1.0"⟩ false
      = .ok ⟨"key", "http://mandrillapp.com/api/1.0/", false⟩
    ∧ get_target "http://mandrillapp.com/api/1.0" plainMsg
      = "http://mandrillapp.com/api/1.0messages/send.json"
    ∧ get_target "http://mandrillapp.com/api/1.0" templateMsg
      = "http://mandrillapp.com/api/1.0messages/send-template.json"
    ∧ ¬ get_target "http://mandrillapp.com/api/1.0" plainMsg
      = "http://mandrillapp.com/api/1.0/" ++ "messages/send.json"
    ∧ (∃ p, build_payload exampleBackend templateMsg = .ok p
        ∧ p.template_name = some "welcome"
        ∧ p.template_content = some [("block", "<b>hi</b>")])
    ∧ (∃ p, build_payload exampleBackend plainMsg = .ok p
        ∧ p.template_name = none ∧ p.template_content = none) := by
  refine ⟨rfl, rfl, rfl, by decide, ⟨_, rfl, rfl, rfl⟩, ⟨_, rfl, rfl, rfl⟩⟩

/-- C6 counterexample: constructing a template message without a template
name (or with an empty one) raises `RuntimeError`, not the
`ImproperlyConfigured` error the spec calls `ConfigurationError`. -/
theorem c6_counterexample :
    djrillTemplateMessageInit exampleBase none none none none true true
      = .error (.runtimeError "Template name is required")
    ∧ raisesConfigurationError
        (djrillTemplateMessageInit exampleBase none none none none true true)
        = false
    ∧ djrillTemplateMessageInit exampleBase (some "") none none none true true
      = .error (.runtimeError "Template name is required")
    ∧ raisesConfigurationError
        (djrillTemplateMessageInit exampleBase (some "") none none none true
          true) = false :=
  ⟨rfl, rfl, rfl, rfl⟩

/-- C6 amended: constructing a template-variant message with a missing or
empty template_name fails with `RuntimeError` (assuming tag validation in
the mixin initializer, which runs first, succeeded); with a non-empty
template_name it succeeds, and template_content defaults to the empty
sequence when not supplied (`template_content or []`). -/
theorem c6_amended_template_name
    (base : BaseFields) (tn : Option String)
    (tc : Option (List (String × String))) (fn : Option String)
    (tg : Option (List String)) (tro trc : Bool) (tl : List String)
    (htags : set_mandrill_tags (tg.getD []) = .ok tl) :
    ((tn = none ∨ tn = some "") →
      djrillTemplateMessageInit base tn tc fn tg tro trc
        = .error (.runtimeError "Template name is required"))
    ∧ (∀ s, tn = some s → s ≠ "" →
      ∃ m, djrillTemplateMessageInit base tn tc fn tg tro trc = .ok m
        ∧ m.template_name = s
        ∧ m.template_content = tc.getD []) := by
  have hinit : djrillMessageInit base fn tg tro trc
      = .ok { subject := base.subject
              body := base.body
              from_email := base.from_email
              recipients := base.recipients
              extra_headers := base.extra_headers
              alternatives := base.alternatives
              encoding := base.encoding
              content_subtype := "mandrill"
              from_name := some fn
              tags := tl
              track_opens := tro
              track_clicks := trc
              global_merge_vars := none
              template_name := ""
              template_content := [] } := by
    simp [djrillMessageInit, htags, Except.map]
  constructor
  · rintro (h | h) <;> subst h <;> simp [djrillTemplateMessageInit, hinit]
  · intro s hs hne
    subst hs
    refine ⟨{ subject := base.subject
              body := base.body
              from_email := base.from_email
              recipients := base.recipients
              extra_headers := base.extra_headers
              alternatives := []
              encoding := base.encoding
              content_subtype := "mandrill.template"
              from_name := some fn
              tags := tl
              track_opens := tro
              track_clicks := trc
              global_merge_vars := none
              template_name := s
              template_content := tc.getD [] }, ?_, rfl, rfl⟩
    simp [djrillTemplateMessageInit, hinit, hne]

/-- Witness for C6 amended: a missing name raises `RuntimeError`; the name
"welcome" with no template_content yields an empty template_content. -/
theorem c6_witness :
    set_mandrill_tags ((none : Option (List String)).getD []) = .ok []
    ∧ djrillTemplateMessageInit exampleBase none none none none true true
      = .error (.runtimeError "Template name is required")
    ∧ (∃ m, djrillTemplateMessageInit exampleBase (some "welcome") none none
        none true true = .ok m
        ∧ m.template_name = "welcome" ∧ m.template_content = []) := by
  have h1 := (c6_amended_template_name exampleBase none none none none true
    true [] rfl).1 (Or.inl rfl)
  have h2 := (c6_amended_template_name exampleBase (some "welcome") none none
    none true true [] rfl).2 "welcome" rfl (by decide)
  exact ⟨rfl, h1, by simpa using h2⟩

/-- C7 (code bug): `__init__` subscripts `self.api_url[-1]` before either
`ImproperlyConfigured` check runs, so an absent `MANDRILL_API_URL` raises
`TypeError` (and an empty one `IndexError`), never the configuration
error; an absent API key together with an absent URL also raises
`TypeError` first. Only with a present URL does a missing key raise
`ImproperlyConfigured`, and a successful construction stores a base URL
ending in "/". -/
theorem c7_missing_url_raises_type_error :
    backendInit ⟨some "key", none⟩ false
      = .error (.typeError "'NoneType' object is not subscriptable")
    ∧ raisesConfigurationError (backendInit ⟨some "key", none⟩ false) = false
    ∧ backendInit ⟨none, none⟩ false
      = .error (.typeError "'NoneType' object is not subscriptable")
    ∧ backendInit ⟨some "key", some ""⟩ false
      = .error (.indexError "string index out of range")
    ∧ backendInit ⟨none, some "http://u"⟩ false
      = .error (.improperlyConfigured
          "You have not set your Mandrill api key in the settings.py file.")
    ∧ backendInit ⟨some "key", some "http://u"⟩ false
      = .ok ⟨"key", "http://u/", false⟩
    ∧ backendInit ⟨some "key", some "http://u/"⟩ false
      = .ok ⟨"key", "http://u/", false⟩ := by
  refine ⟨rfl, rfl, rfl, by decide, by decide, by decide, by decide⟩

/-- C8 (code bug): the mixin initializer never sets the
`global_merge_vars` attribute, and `_update_mandrill_payload` reads
`message.global_merge_vars` unconditionally, so the extension-merge step
raises `AttributeError` for every mixin-constructed message whose caller
did not assign the attribute — rather than succeeding with the key
omitted. When the attribute is assigned, the payload carries the
`{name, content}` list exactly when it is non-empty. -/
theorem c8_global_merge_vars_unset_attribute :
    djrillMessageInit exampleBase (some "Bob") none true true = .ok mixinMsg
    ∧ mixinMsg.global_merge_vars = none
    ∧ update_mandrill_payload (build_standard_payload exampleBackend mixinMsg)
        mixinMsg = .error (.attrError "global_merge_vars")
    ∧ build_payload exampleBackend mixinMsg
      = .error (.attrError "global_merge_vars")
    ∧ send_message "http://u/" exampleBackend okTransport mixinMsg
      = .error (.attrError "global_merge_vars")
    ∧ (∃ p, build_payload exampleBackend
        { mixinMsg with global_merge_vars := some [("var1", "value1")] }
        = .ok p
        ∧ p.message.global_merge_vars = some [("var1", "value1")])
    ∧ (∃ p, build_payload exampleBackend
        { mixinMsg with global_merge_vars := some [] } = .ok p
        ∧ p.message.global_merge_vars = none) := by
  refine ⟨rfl, rfl, rfl, rfl, by decide, ⟨_, rfl, rfl⟩, ⟨_, rfl, rfl⟩⟩

/-- C10 counterexample: the claim fails as stated — for the default
mixin-built two-alternative message (`global_merge_vars` attribute
unset), `_send` under fail_silently raises `AttributeError` from the
unconditional `message.global_merge_vars` read, not the claimed
`ImproperlyConfigured`: the alternatives check is never reached. -/
theorem c10_counterexample :
    silentBackend.fail_silently = true
    ∧ twoAltNoGmvMsg.global_merge_vars = none
    ∧ 2 ≤ twoAltNoGmvMsg.alternatives.length
    ∧ send_message "http://u/" silentBackend okTransport twoAltNoGmvMsg
      = .error (.attrError "global_merge_vars")
    ∧ raisesConfigurationError
        (send_message "http://u/" silentBackend okTransport twoAltNoGmvMsg)
      = false := by
  refine ⟨rfl, rfl, by decide, by decide, by decide⟩

/-- C10 as amended: fail_silently guards only the non-200 response path;
a provider-extended message whose `global_merge_vars` attribute has been
assigned (with it unset the send raises too, but with `AttributeError` —
see the counterexample) and that has more than one alternative makes
`_send` raise `ImproperlyConfigured` even when fail_silently is true,
because the alternatives check sits in payload building, before the
transport call and outside the fail_silently guard (the result does not
depend on the transport at all). -/
theorem c10_config_error_not_silenced
    (u : String) (b : DjrillBackend) (t : Transport) (m : DjrillMessage)
    (g : List (String × String))
    (_hfs : b.fail_silently = true)
    (hrec : m.recipients ≠ [])
    (hsub : pyStartsWith m.content_subtype "mandrill" = true)
    (hg : m.global_merge_vars = some g)
    (halt : 2 ≤ m.alternatives.length) :
    send_message u b t m = .error (.improperlyConfigured
      "Mandrill only accepts plain text and html emails. Please check the alternatives you have attached to your message.") := by
  have hbp := build_payload_multi_alternatives b m g hsub hg halt
  simp [send_message, hrec, hbp]

/-- Witness for C10: a two-alternative mixin message raises
`ImproperlyConfigured` through a fail_silently backend and an
always-accepting transport. -/
theorem c10_witness :
    silentBackend.fail_silently = true
    ∧ twoAltMsg.recipients ≠ []
    ∧ pyStartsWith twoAltMsg.content_subtype "mandrill" = true
    ∧ twoAltMsg.global_merge_vars = some []
    ∧ 2 ≤ twoAltMsg.alternatives.length
    ∧ send_message "http://u/" silentBackend okTransport twoAltMsg
      = .error (.improperlyConfigured
        "Mandrill only accepts plain text and html emails. Please check the alternatives you have attached to your message.") :=
  ⟨rfl, by decide, rfl, rfl, by decide,
    c10_config_error_not_silenced "http://u/" silentBackend okTransport
      twoAltMsg [] rfl (by decide) rfl rfl (by decide)⟩

end Djrill
